import Mathlib

/-!
Shallow embedding of the express-locallibrary catalog controllers
(authorController, bookController, genreController, bookinstanceController).

The persistence layer, the template renderer and the validation library are
external collaborators; they are modelled as the given interfaces the code
uses: a document store over in-memory lists (`findById`, `findByIdAndDelete`,
`findByIdAndUpdate`, filtered `find`, sorted `find`), a renderer that records
which template was asked for and with which data context, and a validation
pipeline producing per-field error messages.  Each request handler becomes a
pure function from a store and the request inputs to the new store together
with the list of response actions the handler performs, in order (the source
occasionally performs more than one, e.g. a redirect followed by a render
when a `return` is missing).
-/

set_option linter.unusedVariables false

namespace LocalLibrary

/-- Character-list view of a string; all string primitives of the model are
computed on this view so that every definition evaluates by kernel
reduction. -/
def chars (s : String) : List Char := s.data

/-- ASCII whitespace, as stripped by the `trim()` sanitizer. -/
def isWhitespaceChar (c : Char) : Bool :=
  c == ' ' || c == Char.ofNat 9 || c == Char.ofNat 10 ||
  c == Char.ofNat 11 || c == Char.ofNat 12 || c == Char.ofNat 13

/-- Model of the validator-library `trim()` sanitizer: strips leading and
trailing whitespace. -/
def trimStr (s : String) : String :=
  ⟨((chars s).dropWhile isWhitespaceChar).reverse.dropWhile isWhitespaceChar |>.reverse⟩

/-- Length of a string, on the character-list view. -/
def strLength (s : String) : Nat := (chars s).length

/-- Emptiness of a string, on the character-list view. -/
def strIsEmpty (s : String) : Bool := (chars s).isEmpty

/-- Lower-casing, modelling the store's case-insensitive collation. -/
def lowerStr (s : String) : String := ⟨(chars s).map Char.toLower⟩

/-- Model of the validator-library HTML escaper (`escape()` sanitizer, an
external collaborator): replaces the escaped characters with entities. -/
def escapeChar (c : Char) : List Char :=
  if c = '&' then chars "&amp;"
  else if c = '<' then chars "&lt;"
  else if c = '>' then chars "&gt;"
  else if c = Char.ofNat 34 then chars "&quot;"
  else if c = Char.ofNat 39 then chars "&#x27;"
  else if c = Char.ofNat 47 then chars "&#x2F;"
  else [c]

/-- The escaper on a character list. -/
def escapeList : List Char → List Char
  | [] => []
  | c :: cs => escapeChar c ++ escapeList cs

/-- Model of `escape()` applied to a whole string. -/
def escapeHtml (s : String) : String :=
  ⟨escapeList (chars s)⟩

/-- Model of the validator-library `isAlphanumeric` check (default en-US
locale: at least one character, all ASCII letters or digits). -/
def isAlphanumeric (s : String) : Bool :=
  !(chars s).isEmpty && (chars s).all Char.isAlphanum

/-- Model of the validator-library `isISO8601` date check, restricted to the
calendar-date shape YYYY-MM-DD with plausible month and day ranges. -/
def isISO8601Date (s : String) : Bool :=
  match chars s with
  | [y1, y2, y3, y4, s1, m1, m2, s2, d1, d2] =>
      y1.isDigit && y2.isDigit && y3.isDigit && y4.isDigit &&
      s1 == '-' && m1.isDigit && m2.isDigit && s2 == '-' &&
      d1.isDigit && d2.isDigit &&
      (let m := (m1.toNat - 48) * 10 + (m2.toNat - 48)
       let d := (d1.toNat - 48) * 10 + (d2.toNat - 48)
       1 ≤ m && m ≤ 12 && 1 ≤ d && d ≤ 31)
  | _ => false

/-- Model of `optional(\x7b values: "falsy" \x7d).isISO8601()`: an absent or
empty value is accepted; otherwise the value must be an ISO-8601 date. -/
def optionalFalsyISO8601 (v : Option String) : Bool :=
  match v with
  | none => true
  | some s => strIsEmpty s || isISO8601Date s

/-- Model of the `toDate` sanitizer on an optional falsy field: an absent or
empty submission becomes an absent stored value; the model keeps the date as
its submitted string. -/
def toDateField (v : Option String) : Option String :=
  match v with
  | none => none
  | some s => if strIsEmpty s then none else some s

/-- Author record (models/author).  Identifiers are the store's document ids,
kept as strings. -/
structure Author where
  id : String
  first_name : String
  family_name : String
  date_of_birth : Option String
  date_of_death : Option String
  deriving Repr, DecidableEq

/-- Genre record (models/genre). -/
structure Genre where
  id : String
  name : String
  deriving Repr, DecidableEq

/-- Book record (models/book): one author reference, many genre references. -/
structure Book where
  id : String
  title : String
  author : String
  summary : String
  isbn : String
  genre : List String
  deriving Repr, DecidableEq

/-- BookInstance record (models/bookinstance): one book reference. -/
structure BookInstance where
  id : String
  book : String
  imprint : String
  status : String
  due_back : Option String
  deriving Repr, DecidableEq

/-- The document store: one collection per entity. -/
structure Store where
  authors : List Author
  books : List Book
  genres : List Genre
  bookinstances : List BookInstance
  deriving Repr, DecidableEq

/-- Store interface: `Model.findById(id)`. -/
def findById {α : Type} (idOf : α → String) (l : List α) (i : String) : Option α :=
  l.find? (fun r => idOf r == i)

/-- Store interface: `Model.findByIdAndDelete(id)` — removes the record with
the given id, if any. -/
def findByIdAndDelete {α : Type} (idOf : α → String) (l : List α) (i : String) : List α :=
  l.filter (fun r => idOf r != i)

/-- Store interface: `Model.findByIdAndUpdate(id, doc)` — replaces the record
with the given id by `newRec` and returns the matched record (null when no
record has that id, in which case the collection is unchanged). -/
def findByIdAndUpdate {α : Type} (idOf : α → String) (l : List α) (i : String)
    (newRec : α) : List α × Option α :=
  match l.find? (fun r => idOf r == i) with
  | none => (l, none)
  | some old => (l.map (fun r => if idOf r == i then newRec else r), some old)

/-- Lexicographic order on character lists, modelling the store's ordering
of string sort keys. -/
def charListLe : List Char → List Char → Bool
  | [], _ => true
  | _ :: _, [] => false
  | a :: as, b :: bs =>
      if a.toNat < b.toNat then true
      else if b.toNat < a.toNat then false
      else charListLe as bs

theorem charListLe_total : ∀ l1 l2 : List Char,
    charListLe l1 l2 = true ∨ charListLe l2 l1 = true
  | [], _ => Or.inl rfl
  | _ :: _, [] => Or.inr rfl
  | a :: as, b :: bs => by
      rcases Nat.lt_trichotomy a.toNat b.toNat with h | h | h
      · left
        simp [charListLe, h]
      · have h1 : ¬ a.toNat < b.toNat := by omega
        have h2 : ¬ b.toNat < a.toNat := by omega
        simpa [charListLe, h1, h2] using charListLe_total as bs
      · right
        simp [charListLe, h]

theorem charListLe_trans : ∀ l1 l2 l3 : List Char,
    charListLe l1 l2 = true → charListLe l2 l3 = true → charListLe l1 l3 = true
  | [], _, _, _, _ => rfl
  | _ :: _, [], _, h12, _ => by simp [charListLe] at h12
  | _ :: _, _ :: _, [], _, h23 => by simp [charListLe] at h23
  | a :: as, b :: bs, c :: cs, h12, h23 => by
      simp only [charListLe] at h12 h23 ⊢
      rcases Nat.lt_trichotomy a.toNat b.toNat with hab | hab | hab
      · rcases Nat.lt_trichotomy b.toNat c.toNat with hbc | hbc | hbc
        · have hac : a.toNat < c.toNat := by omega
          simp [hac]
        · have hac : a.toNat < c.toNat := by omega
          simp [hac]
        · simp [Nat.lt_asymm hbc, hbc] at h23
      · rcases Nat.lt_trichotomy b.toNat c.toNat with hbc | hbc | hbc
        · have hac : a.toNat < c.toNat := by omega
          simp [hac]
        · have h1 : ¬ a.toNat < b.toNat := by omega
          have h2 : ¬ b.toNat < a.toNat := by omega
          have h3 : ¬ b.toNat < c.toNat := by omega
          have h4 : ¬ c.toNat < b.toNat := by omega
          have h5 : ¬ a.toNat < c.toNat := by omega
          have h6 : ¬ c.toNat < a.toNat := by omega
          simp [h1, h2] at h12
          simp [h3, h4] at h23
          simpa [h5, h6] using charListLe_trans as bs cs h12 h23
        · simp [Nat.lt_asymm hbc, hbc] at h23
      · simp [Nat.lt_asymm hab, hab] at h12

/-- Ascending order on a string sort key, as used by `.sort(\x7b key: 1 \x7d)`. -/
def keyLe {α : Type} (key : α → String) (a b : α) : Prop :=
  charListLe (chars (key a)) (chars (key b)) = true

instance {α : Type} (key : α → String) : DecidableRel (keyLe key) :=
  fun a b => inferInstanceAs (Decidable (_ = true))

instance {α : Type} (key : α → String) : IsTotal α (keyLe key) :=
  ⟨fun a b => charListLe_total (chars (key a)) (chars (key b))⟩

instance {α : Type} (key : α → String) : IsTrans α (keyLe key) :=
  ⟨fun a b c hab hbc => charListLe_trans _ _ _ hab hbc⟩

/-- Store interface: `Model.find().sort(\x7b key: 1 \x7d)` — all records of a
collection in ascending order of the sort key. -/
def sortByKey {α : Type} (key : α → String) (l : List α) : List α :=
  List.insertionSort (keyLe key) l

/-- Modelled from the spec: the Author model's `url` virtual (models/ is not
part of the provided sources) — the canonical detail path of the record. -/
def authorUrl (id : String) : String := "/catalog/author/" ++ id

/-- Modelled from the spec: the Genre model's `url` virtual. -/
def genreUrl (id : String) : String := "/catalog/genre/" ++ id

/-- Modelled from the spec: the Book model's `url` virtual. -/
def bookUrl (id : String) : String := "/catalog/book/" ++ id

/-- Modelled from the spec: the BookInstance model's `url` virtual. -/
def bookinstanceUrl (id : String) : String := "/catalog/bookinstance/" ++ id

/-- A record of any of the four entities, as handed to the renderer. -/
inductive Entity where
  | author (a : Author)
  | genre (g : Genre)
  | book (b : Book)
  | bi (i : BookInstance)
  deriving Repr, DecidableEq

/-- A per-field validation error: field name and message. -/
def FieldError : Type := String × String

instance : DecidableEq FieldError := inferInstanceAs (DecidableEq (String × String))

instance : Repr FieldError := inferInstanceAs (Repr (String × String))

/-- The data context handed to the renderer: the primary record (possibly
null), up to two reference lists, and the validation errors. -/
structure Ctx where
  entity : Option Entity := none
  entities : List Entity := []
  entities2 : List Entity := []
  errors : List FieldError := []
  deriving Repr, DecidableEq

/-- One response action performed by a handler: a template render with its
data context, a redirect, or a fatal request error. -/
inductive Action where
  | render (view : String) (ctx : Ctx)
  | redirect (url : String)
  | fatal (msg : String)
  deriving Repr, DecidableEq

/-- Raw Author form body (`first_name`, `family_name`, `date_of_birth`,
`date_of_death`). -/
structure AuthorForm where
  first_name : String
  family_name : String
  date_of_birth : Option String
  date_of_death : Option String
  deriving Repr, DecidableEq

/-- Validation rules of the Author create and update chains. -/
def validateAuthorForm (f : AuthorForm) : List FieldError :=
  (if strLength (trimStr f.first_name) ≥ 1 then [] else [("first_name", "名は必須です。")]) ++
  (if isAlphanumeric (trimStr f.first_name) then [] else
    [("first_name", "名には英数字のみ使用できます。")]) ++
  (if strLength (trimStr f.family_name) ≥ 1 then [] else [("family_name", "姓は必須です。")]) ++
  (if isAlphanumeric (trimStr f.family_name) then [] else
    [("family_name", "姓には英数字のみ使用できます。")]) ++
  (if optionalFalsyISO8601 f.date_of_birth then [] else
    [("date_of_birth", "生年月日が無効です")]) ++
  (if optionalFalsyISO8601 f.date_of_death then [] else
    [("date_of_death", "没年月日が無効です")])

/-- The Author record built from the sanitized body (`new Author(...)`). -/
def authorFromForm (id : String) (f : AuthorForm) : Author :=
  { id := id,
    first_name := escapeHtml (trimStr f.first_name),
    family_name := escapeHtml (trimStr f.family_name),
    date_of_birth := toDateField f.date_of_birth,
    date_of_death := toDateField f.date_of_death }

/-- Raw Genre form body (`name`). -/
structure GenreForm where
  name : String
  deriving Repr, DecidableEq

/-- Validation rule of the Genre create and update chains. -/
def validateGenreForm (f : GenreForm) : List FieldError :=
  if strLength (trimStr f.name) ≥ 3 then [] else
    [("name", "ジャンル名は3文字以上で入力してください")]

/-- The Genre record built from the sanitized body (`new Genre(...)`). -/
def genreFromForm (id : String) (f : GenreForm) : Genre :=
  { id := id, name := escapeHtml (trimStr f.name) }

/-- The `genre` form field as delivered by the transport layer: absent, a
single scalar value, or already an array. -/
inductive GenreField where
  | absent
  | one (v : String)
  | many (vs : List String)
  deriving Repr, DecidableEq

/-- The array-normalization middleware in front of the Book create and update
chains: absent becomes the empty array, a scalar becomes a one-element array,
an array is left unchanged. -/
def normalizeGenre : GenreField → List String
  | GenreField.absent => []
  | GenreField.one v => [v]
  | GenreField.many vs => vs

/-- Raw Book form body (`title`, `author`, `summary`, `isbn`, `genre`). -/
structure BookForm where
  title : String
  author : String
  summary : String
  isbn : String
  genre : GenreField
  deriving Repr, DecidableEq

/-- Validation rules of the Book create and update chains (`genre.*` is only
escaped, never rejected). -/
def validateBookForm (f : BookForm) : List FieldError :=
  (if strLength (trimStr f.title) ≥ 1 then [] else [("title", "タイトルは必須です。")]) ++
  (if strLength (trimStr f.author) ≥ 1 then [] else [("author", "著者は必須です。")]) ++
  (if strLength (trimStr f.summary) ≥ 1 then [] else [("summary", "概要は必須です。")]) ++
  (if strLength (trimStr f.isbn) ≥ 1 then [] else [("isbn", "ISBNは必須です")])

/-- The Book record built from the sanitized body (`new Book(...)`): the
genre field is first normalized to an array, then each element escaped. -/
def bookFromForm (id : String) (f : BookForm) : Book :=
  { id := id,
    title := escapeHtml (trimStr f.title),
    author := escapeHtml (trimStr f.author),
    summary := escapeHtml (trimStr f.summary),
    isbn := escapeHtml (trimStr f.isbn),
    genre := (normalizeGenre f.genre).map escapeHtml }

/-- Raw BookInstance form body (`book`, `imprint`, `status`, `due_back`). -/
structure BookInstanceForm where
  book : String
  imprint : String
  status : String
  due_back : Option String
  deriving Repr, DecidableEq

/-- Validation rules of the BookInstance create and update chains (`status`
is only escaped, never rejected). -/
def validateBookInstanceForm (f : BookInstanceForm) : List FieldError :=
  (if strLength (trimStr f.book) ≥ 1 then [] else [("book", "本を指定してください")]) ++
  (if strLength (trimStr f.imprint) ≥ 1 then [] else [("imprint", "出版情報を指定してください")]) ++
  (if optionalFalsyISO8601 f.due_back then [] else [("due_back", "無効な日付です")])

/-- The BookInstance record built from the sanitized body. -/
def bookInstanceFromForm (id : String) (f : BookInstanceForm) : BookInstance :=
  { id := id,
    book := escapeHtml (trimStr f.book),
    imprint := escapeHtml (trimStr f.imprint),
    status := escapeHtml f.status,
    due_back := toDateField f.due_back }

/-- `author_list`: all authors sorted ascending by family name. -/
def author_list (s : Store) : Store × List Action :=
  let allAuthors := sortByKey Author.family_name s.authors
  (s, [Action.render "author_list" { entities := allAuthors.map Entity.author }])

/-- `author_delete_get`: fetches the author and their books; on a missing
author issues the list redirect (without returning) and then renders the
confirmation view regardless. -/
def author_delete_get (s : Store) (paramsId : String) : Store × List Action :=
  let author := findById Author.id s.authors paramsId
  let allBooksByAuthor := s.books.filter (fun b => b.author == paramsId)
  (s,
    (if author.isNone then [Action.redirect "/catalog/authors"] else []) ++
    [Action.render "author_delete"
      { entity := author.map Entity.author,
        entities := allBooksByAuthor.map Entity.book }])

/-- `author_delete_post`: re-renders the confirmation view when the author of
the URL id still has books; otherwise deletes the record named by the body
field `authorid` and redirects to the author list. -/
def author_delete_post (s : Store) (paramsId bodyAuthorid : String) : Store × List Action :=
  let author := findById Author.id s.authors paramsId
  let allBooksByAuthor := s.books.filter (fun b => b.author == paramsId)
  if allBooksByAuthor.length > 0 then
    (s, [Action.render "author_delete"
      { entity := author.map Entity.author,
        entities := allBooksByAuthor.map Entity.book }])
  else
    ({ s with authors := findByIdAndDelete Author.id s.authors bodyAuthorid },
     [Action.redirect "/catalog/authors"])

/-- `author_create_post` (validation handler): on errors re-render the form
with the attempted record and messages; otherwise save and redirect to the
new record's detail page.  `newId` is the fresh id the store assigns at
record construction. -/
def author_create_post (s : Store) (newId : String) (f : AuthorForm) : Store × List Action :=
  let errors := validateAuthorForm f
  let author := authorFromForm newId f
  if errors.isEmpty then
    ({ s with authors := s.authors ++ [author] },
     [Action.redirect (authorUrl author.id)])
  else
    (s, [Action.render "author_form"
      { entity := some (Entity.author author), errors := errors }])

/-- `author_update_post` (validation handler): the record is rebuilt from the
body and keeps the URL id; on success the store updates by that id and the
response redirects to the constructed record's detail page. -/
def author_update_post (s : Store) (paramsId : String) (f : AuthorForm) : Store × List Action :=
  let errors := validateAuthorForm f
  let author := authorFromForm paramsId f
  if errors.isEmpty then
    ({ s with authors := (findByIdAndUpdate Author.id s.authors paramsId author).1 },
     [Action.redirect (authorUrl author.id)])
  else
    (s, [Action.render "author_form"
      { entity := some (Entity.author author), errors := errors }])

/-- `genre_list`: all genres sorted ascending by name. -/
def genre_list (s : Store) : Store × List Action :=
  let allGenres := sortByKey Genre.name s.genres
  (s, [Action.render "genre_list" { entities := allGenres.map Entity.genre }])

/-- `genre_delete_get`: like the author variant, the missing-record redirect
is not followed by a return, so the render still takes place. -/
def genre_delete_get (s : Store) (paramsId : String) : Store × List Action :=
  let genre := findById Genre.id s.genres paramsId
  let booksInGenre := s.books.filter (fun b => b.genre.contains paramsId)
  (s,
    (if genre.isNone then [Action.redirect "/catalog/genres"] else []) ++
    [Action.render "genre_delete"
      { entity := genre.map Entity.genre,
        entities := booksInGenre.map Entity.book }])

/-- `genre_delete_post`: re-renders the confirmation view when books still
reference the URL id; otherwise deletes the record named by the body field
`id` and redirects to the genre list. -/
def genre_delete_post (s : Store) (paramsId bodyId : String) : Store × List Action :=
  let genre := findById Genre.id s.genres paramsId
  let booksInGenre := s.books.filter (fun b => b.genre.contains paramsId)
  if booksInGenre.length > 0 then
    (s, [Action.render "genre_delete"
      { entity := genre.map Entity.genre,
        entities := booksInGenre.map Entity.book }])
  else
    ({ s with genres := findByIdAndDelete Genre.id s.genres bodyId },
     [Action.redirect "/catalog/genres"])

/-- `genre_create_post` (validation handler): on success a case-insensitive
search for the sanitized name runs first; an existing genre short-circuits
the save and the response redirects to its detail page. -/
def genre_create_post (s : Store) (newId : String) (f : GenreForm) : Store × List Action :=
  let errors := validateGenreForm f
  let genre := genreFromForm newId f
  if errors.isEmpty then
    match s.genres.find? (fun g => lowerStr g.name == lowerStr genre.name) with
    | some genreExists => (s, [Action.redirect (genreUrl genreExists.id)])
    | none =>
        ({ s with genres := s.genres ++ [genre] },
         [Action.redirect (genreUrl genre.id)])
  else
    (s, [Action.render "genre_form"
      { entity := some (Entity.genre genre), errors := errors }])

/-- `genre_update_post` (validation handler): rebuilds the record with the
URL id, updates by that id and redirects to the constructed record's page. -/
def genre_update_post (s : Store) (paramsId : String) (f : GenreForm) : Store × List Action :=
  let errors := validateGenreForm f
  let genre := genreFromForm paramsId f
  if errors.isEmpty then
    ({ s with genres := (findByIdAndUpdate Genre.id s.genres paramsId genre).1 },
     [Action.redirect (genreUrl genre.id)])
  else
    (s, [Action.render "genre_form"
      { entity := some (Entity.genre genre), errors := errors }])

/-- `book_list`: all books sorted ascending by title. -/
def book_list (s : Store) : Store × List Action :=
  (s, [Action.render "book_list"
    { entities := (sortByKey Book.title s.books).map Entity.book }])

/-- `book_delete_get`: missing-record redirect not followed by a return, so
the render still takes place. -/
def book_delete_get (s : Store) (paramsId : String) : Store × List Action :=
  let book := findById Book.id s.books paramsId
  let bookInstances := s.bookinstances.filter (fun i => i.book == paramsId)
  (s,
    (if book.isNone then [Action.redirect "/catalog/books"] else []) ++
    [Action.render "book_delete"
      { entity := book.map Entity.book,
        entities := bookInstances.map Entity.bi }])

/-- `book_delete_post`: the missing-record redirect is again not followed by
a return; then, when book instances still reference the URL id, the
confirmation view is re-rendered, otherwise the record named by the body
field `id` is deleted and the response redirects to the book list. -/
def book_delete_post (s : Store) (paramsId bodyId : String) : Store × List Action :=
  let book := findById Book.id s.books paramsId
  let bookInstances := s.bookinstances.filter (fun i => i.book == paramsId)
  let acts0 := if book.isNone then [Action.redirect "/catalog/books"] else []
  if bookInstances.length > 0 then
    (s, acts0 ++ [Action.render "book_delete"
      { entity := book.map Entity.book,
        entities := bookInstances.map Entity.bi }])
  else
    ({ s with books := findByIdAndDelete Book.id s.books bodyId },
     acts0 ++ [Action.redirect "/catalog/books"])

/-- `book_create_post` (validation handler, after the genre normalization
middleware): on errors the author and genre reference lists are re-fetched
for the re-render; otherwise the book is saved and the response redirects to
its detail page. -/
def book_create_post (s : Store) (newId : String) (f : BookForm) : Store × List Action :=
  let errors := validateBookForm f
  let book := bookFromForm newId f
  if errors.isEmpty then
    ({ s with books := s.books ++ [book] }, [Action.redirect (bookUrl book.id)])
  else
    (s, [Action.render "book_form"
      { entity := some (Entity.book book),
        entities := (sortByKey Author.family_name s.authors).map Entity.author,
        entities2 := (sortByKey Genre.name s.genres).map Entity.genre,
        errors := errors }])

/-- `book_update_post` (validation handler, after the genre normalization
middleware): rebuilds the record with the URL id; on success the result of
the update-by-id call is dereferenced for the redirect target, which is a
fatal request error when no record had that id (`thebook` is null). -/
def book_update_post (s : Store) (paramsId : String) (f : BookForm) : Store × List Action :=
  let errors := validateBookForm f
  let book := bookFromForm paramsId f
  if errors.isEmpty then
    match findByIdAndUpdate Book.id s.books paramsId book with
    | (books2, some thebook) =>
        ({ s with books := books2 }, [Action.redirect (bookUrl thebook.id)])
    | (books2, none) =>
        ({ s with books := books2 },
         [Action.fatal "TypeError: Cannot read properties of null (reading url)"])
  else
    (s, [Action.render "book_form"
      { entity := some (Entity.book book),
        entities := (sortByKey Author.family_name s.authors).map Entity.author,
        entities2 := (sortByKey Genre.name s.genres).map Entity.genre,
        errors := errors }])

/-- `bookinstance_list`: all book instances, fetched without any sort. -/
def bookinstance_list (s : Store) : Store × List Action :=
  (s, [Action.render "bookinstance_list"
    { entities := s.bookinstances.map Entity.bi }])

/-- `bookinstance_delete_get`: missing-record redirect not followed by a
return, so the render still takes place. -/
def bookinstance_delete_get (s : Store) (paramsId : String) : Store × List Action :=
  let bi := findById BookInstance.id s.bookinstances paramsId
  (s,
    (if bi.isNone then [Action.redirect "/catalog/bookinstances"] else []) ++
    [Action.render "bookinstance_delete" { entity := bi.map Entity.bi }])

/-- `bookinstance_delete_post`: no dependent check at all — deletes the
record named by the body field `id` and redirects to the list. -/
def bookinstance_delete_post (s : Store) (bodyId : String) : Store × List Action :=
  ({ s with bookinstances := findByIdAndDelete BookInstance.id s.bookinstances bodyId },
   [Action.redirect "/catalog/bookinstances"])

/-- `bookinstance_create_post` (validation handler): on errors the book
reference list is re-fetched sorted by title for the re-render; otherwise the
record is saved and the response redirects to its detail page. -/
def bookinstance_create_post (s : Store) (newId : String) (f : BookInstanceForm) :
    Store × List Action :=
  let errors := validateBookInstanceForm f
  let bookInstance := bookInstanceFromForm newId f
  if errors.isEmpty then
    ({ s with bookinstances := s.bookinstances ++ [bookInstance] },
     [Action.redirect (bookinstanceUrl bookInstance.id)])
  else
    (s, [Action.render "bookinstance_form"
      { entity := some (Entity.bi bookInstance),
        entities := (sortByKey Book.title s.books).map Entity.book,
        errors := errors }])

/-- `bookinstance_update_post` (validation handler): rebuilds the record with
the URL id; on errors the book reference list is re-fetched without a sort;
on success the store updates by the URL id and the response redirects to the
constructed record's detail page. -/
def bookinstance_update_post (s : Store) (paramsId : String) (f : BookInstanceForm) :
    Store × List Action :=
  let errors := validateBookInstanceForm f
  let bookInstance := bookInstanceFromForm paramsId f
  if errors.isEmpty then
    ({ s with bookinstances :=
        (findByIdAndUpdate BookInstance.id s.bookinstances paramsId bookInstance).1 },
     [Action.redirect (bookinstanceUrl bookInstance.id)])
  else
    (s, [Action.render "bookinstance_form"
      { entity := some (Entity.bi bookInstance),
        entities := s.books.map Entity.book,
        errors := errors }])

/-- A non-nil list has `isEmpty = false`. -/
theorem isEmpty_false_of_ne_nil {α : Type} {l : List α} (h : l ≠ []) : l.isEmpty = false := by
  cases l with
  | nil => exact absurd rfl h
  | cons a as => rfl

/-- The collection component of an update-by-id is the pointwise replacement
of the record carrying that id (a no-op when no record carries it). -/
theorem findByIdAndUpdate_fst {α : Type} (idOf : α → String) (l : List α) (i : String) (r : α) :
    (findByIdAndUpdate idOf l i r).1 = l.map (fun x => if idOf x == i then r else x) := by
  unfold findByIdAndUpdate
  cases h : l.find? (fun x => idOf x == i) with
  | none =>
      have hmap : l.map (fun x => if idOf x == i then r else x) = l.map id :=
        List.map_congr_left (fun x hx => by simp [List.find?_eq_none.mp h x hx])
      rw [hmap, List.map_id]
  | some old => rfl

/-- C1: for every Author or Genre delete-POST request whose target (the URL
identifier) has at least one dependent Book, the store is left completely
unchanged and the single response action is a re-render of the
delete-confirmation view — no redirect, no deletion.  Each entity's
conclusion depends only on that entity's own dependent count. -/
theorem C1_delete_post_blocked_when_dependents (s : Store) (pid bid gpid gbid : String) :
    ((s.books.filter (fun b => b.author == pid)).length > 0 →
      (author_delete_post s pid bid).1 = s ∧
      (author_delete_post s pid bid).2 =
        [Action.render "author_delete"
          { entity := (findById Author.id s.authors pid).map Entity.author,
            entities := (s.books.filter (fun b => b.author == pid)).map Entity.book }]) ∧
    ((s.books.filter (fun b => b.genre.contains gpid)).length > 0 →
      (genre_delete_post s gpid gbid).1 = s ∧
      (genre_delete_post s gpid gbid).2 =
        [Action.render "genre_delete"
          { entity := (findById Genre.id s.genres gpid).map Entity.genre,
            entities := (s.books.filter (fun b => b.genre.contains gpid)).map Entity.book }]) := by
  constructor
  · intro ha
    constructor
    · simp only [author_delete_post]
      rw [if_pos ha]
    · simp only [author_delete_post]
      rw [if_pos ha]
  · intro hg
    constructor
    · simp only [genre_delete_post]
      rw [if_pos hg]
    · simp only [genre_delete_post]
      rw [if_pos hg]

/-- C1 witness: a store with one author and one genre, both referenced by a
book; both delete-POSTs leave the store unchanged. -/
theorem C1_witness :
    ((⟨[⟨"a1", "Jane", "Austen", none, none⟩],
       [⟨"b1", "Emma", "a1", "s", "i", ["g1"]⟩],
       [⟨"g1", "Fiction"⟩], []⟩ : Store).books.filter
        (fun b => b.author == "a1")).length > 0 ∧
    ((⟨[⟨"a1", "Jane", "Austen", none, none⟩],
       [⟨"b1", "Emma", "a1", "s", "i", ["g1"]⟩],
       [⟨"g1", "Fiction"⟩], []⟩ : Store).books.filter
        (fun b => b.genre.contains "g1")).length > 0 ∧
    (author_delete_post
      ⟨[⟨"a1", "Jane", "Austen", none, none⟩],
       [⟨"b1", "Emma", "a1", "s", "i", ["g1"]⟩],
       [⟨"g1", "Fiction"⟩], []⟩ "a1" "a1").1 =
      ⟨[⟨"a1", "Jane", "Austen", none, none⟩],
       [⟨"b1", "Emma", "a1", "s", "i", ["g1"]⟩],
       [⟨"g1", "Fiction"⟩], []⟩ ∧
    (genre_delete_post
      ⟨[⟨"a1", "Jane", "Austen", none, none⟩],
       [⟨"b1", "Emma", "a1", "s", "i", ["g1"]⟩],
       [⟨"g1", "Fiction"⟩], []⟩ "g1" "g1").1 =
      ⟨[⟨"a1", "Jane", "Austen", none, none⟩],
       [⟨"b1", "Emma", "a1", "s", "i", ["g1"]⟩],
       [⟨"g1", "Fiction"⟩], []⟩ := by
  refine ⟨by decide, by decide, ?_, ?_⟩
  · exact ((C1_delete_post_blocked_when_dependents _ "a1" "a1" "g1" "g1").1
      (by decide)).1
  · exact ((C1_delete_post_blocked_when_dependents _ "a1" "a1" "g1" "g1").2
      (by decide)).1

/-- C2 counterexample: with one book and one book instance referencing it,
the Book delete-POST does not delete the book and does not redirect — it
re-renders the confirmation view, refuting the claim that deletion proceeds
without a dependent check. -/
theorem C2_counterexample :
    (book_delete_post
      ⟨[], [⟨"b1", "Emma", "a1", "s", "i", []⟩], [],
       [⟨"c1", "b1", "imp", "Available", none⟩]⟩ "b1" "b1").1 =
      ⟨[], [⟨"b1", "Emma", "a1", "s", "i", []⟩], [],
       [⟨"c1", "b1", "imp", "Available", none⟩]⟩ ∧
    (book_delete_post
      ⟨[], [⟨"b1", "Emma", "a1", "s", "i", []⟩], [],
       [⟨"c1", "b1", "imp", "Available", none⟩]⟩ "b1" "b1").2 =
      [Action.render "book_delete"
        ⟨some (Entity.book ⟨"b1", "Emma", "a1", "s", "i", []⟩),
         [Entity.bi ⟨"c1", "b1", "imp", "Available", none⟩], [], []⟩] :=
  ⟨by decide, by decide⟩

/-- C2 (amended): the Book delete-POST does check BookInstance dependents:
when at least one instance references the URL identifier the store is
unchanged and the confirmation view is re-rendered; only when none does the
deletion proceed (on the body identifier) with a redirect to the book
list. -/
theorem C2_book_delete_checks_dependents (s : Store) (pid bid : String) (b : Book)
    (hb : findById Book.id s.books pid = some b) :
    ((s.bookinstances.filter (fun i => i.book == pid)).length > 0 →
      book_delete_post s pid bid =
        (s, [Action.render "book_delete"
          ⟨some (Entity.book b),
           (s.bookinstances.filter (fun i => i.book == pid)).map Entity.bi, [], []⟩])) ∧
    ((s.bookinstances.filter (fun i => i.book == pid)).length = 0 →
      book_delete_post s pid bid =
        ({ s with books := findByIdAndDelete Book.id s.books bid },
         [Action.redirect "/catalog/books"])) := by
  constructor
  · intro hdep
    simp only [book_delete_post, hb, Option.isNone_some, if_neg]
    rw [if_pos hdep]
    simp
  · intro hdep
    have hdep2 : ¬ (s.bookinstances.filter (fun i => i.book == pid)).length > 0 := by omega
    simp only [book_delete_post, hb, Option.isNone_some, if_neg]
    rw [if_neg hdep2]
    simp

/-- C2 witness: the blocked branch on a store with a dependent instance, and
the deleting branch on a store without one. -/
theorem C2_witness :
    findById Book.id ([⟨"b1", "Emma", "a1", "s", "i", []⟩] : List Book) "b1" =
      some ⟨"b1", "Emma", "a1", "s", "i", []⟩ ∧
    ((⟨[], [⟨"b1", "Emma", "a1", "s", "i", []⟩], [],
       [⟨"c1", "b1", "imp", "Available", none⟩]⟩ : Store).bookinstances.filter
        (fun i => i.book == "b1")).length > 0 ∧
    (book_delete_post
      ⟨[], [⟨"b1", "Emma", "a1", "s", "i", []⟩], [],
       [⟨"c1", "b1", "imp", "Available", none⟩]⟩ "b1" "b1") =
      (⟨[], [⟨"b1", "Emma", "a1", "s", "i", []⟩], [],
        [⟨"c1", "b1", "imp", "Available", none⟩]⟩,
       [Action.render "book_delete"
         ⟨some (Entity.book ⟨"b1", "Emma", "a1", "s", "i", []⟩),
          [Entity.bi ⟨"c1", "b1", "imp", "Available", none⟩], [], []⟩]) ∧
    (book_delete_post
      ⟨[], [⟨"b1", "Emma", "a1", "s", "i", []⟩], [], []⟩ "b1" "b1") =
      (⟨[], [], [], []⟩, [Action.redirect "/catalog/books"]) := by
  refine ⟨by decide, by decide, ?_, ?_⟩
  · exact (C2_book_delete_checks_dependents
      ⟨[], [⟨"b1", "Emma", "a1", "s", "i", []⟩], [],
       [⟨"c1", "b1", "imp", "Available", none⟩]⟩ "b1" "b1"
      ⟨"b1", "Emma", "a1", "s", "i", []⟩ (by decide)).1 (by decide)
  · have h := (C2_book_delete_checks_dependents
      ⟨[], [⟨"b1", "Emma", "a1", "s", "i", []⟩], [], []⟩ "b1" "b1"
      ⟨"b1", "Emma", "a1", "s", "i", []⟩ (by decide)).2 (by decide)
    simpa using h

/-- C3: a validation-passing Genre create-POST whose sanitized name matches
an existing Genre case-insensitively saves nothing and redirects to that
Genre's detail view; with no such match the new Genre is appended and the
response redirects to its detail view. -/
theorem C3_genre_create_dedup (s : Store) (newId : String) (f : GenreForm)
    (hv : validateGenreForm f = []) :
    (∀ g, s.genres.find?
        (fun g0 => lowerStr g0.name == lowerStr (escapeHtml (trimStr f.name))) = some g →
      genre_create_post s newId f = (s, [Action.redirect (genreUrl g.id)])) ∧
    (s.genres.find?
        (fun g0 => lowerStr g0.name == lowerStr (escapeHtml (trimStr f.name))) = none →
      genre_create_post s newId f =
        ({ s with genres := s.genres ++ [genreFromForm newId f] },
         [Action.redirect (genreUrl newId)])) := by
  constructor
  · intro g hg
    simp [genre_create_post, hv, genreFromForm, hg]
  · intro hg
    simp [genre_create_post, hv, genreFromForm, hg]

/-- C3 witness: "fiction" deduplicates against an existing "Fiction" and
redirects there; "Poetry" is saved and redirected to. -/
theorem C3_witness :
    validateGenreForm ⟨"fiction"⟩ = [] ∧
    ([⟨"g1", "Fiction"⟩] : List Genre).find?
      (fun g0 => lowerStr g0.name == lowerStr (escapeHtml (trimStr "fiction"))) =
      some ⟨"g1", "Fiction"⟩ ∧
    genre_create_post ⟨[], [], [⟨"g1", "Fiction"⟩], []⟩ "g9" ⟨"fiction"⟩ =
      (⟨[], [], [⟨"g1", "Fiction"⟩], []⟩, [Action.redirect (genreUrl "g1")]) ∧
    genre_create_post ⟨[], [], [⟨"g1", "Fiction"⟩], []⟩ "g9" ⟨"Poetry"⟩ =
      (⟨[], [], [⟨"g1", "Fiction"⟩, ⟨"g9", "Poetry"⟩], []⟩,
       [Action.redirect (genreUrl "g9")]) := by
  refine ⟨by decide, by decide, ?_, ?_⟩
  · exact (C3_genre_create_dedup ⟨[], [], [⟨"g1", "Fiction"⟩], []⟩ "g9" ⟨"fiction"⟩
      (by decide)).1 ⟨"g1", "Fiction"⟩ (by decide)
  · have h := (C3_genre_create_dedup ⟨[], [], [⟨"g1", "Fiction"⟩], []⟩ "g9" ⟨"Poetry"⟩
      (by decide)).2 (by decide)
    simpa using h

/-- C4: every create-POST and update-POST handler, given a body whose
validation yields a non-empty error list, leaves the store untouched and
answers with the single action of re-rendering the entity's form, carrying
the record built from the submitted (sanitized) values and the full error
list; and a missing required field always contributes its message to that
list. -/
theorem C4_validation_failure_no_write (s : Store) (i : String)
    (fa : AuthorForm) (fg : GenreForm) (fb : BookForm) (fi : BookInstanceForm)
    (ha : validateAuthorForm fa ≠ [])
    (hg : validateGenreForm fg ≠ [])
    (hb : validateBookForm fb ≠ [])
    (hi : validateBookInstanceForm fi ≠ []) :
    author_create_post s i fa =
      (s, [Action.render "author_form"
        ⟨some (Entity.author (authorFromForm i fa)), [], [], validateAuthorForm fa⟩]) ∧
    author_update_post s i fa =
      (s, [Action.render "author_form"
        ⟨some (Entity.author (authorFromForm i fa)), [], [], validateAuthorForm fa⟩]) ∧
    genre_create_post s i fg =
      (s, [Action.render "genre_form"
        ⟨some (Entity.genre (genreFromForm i fg)), [], [], validateGenreForm fg⟩]) ∧
    genre_update_post s i fg =
      (s, [Action.render "genre_form"
        ⟨some (Entity.genre (genreFromForm i fg)), [], [], validateGenreForm fg⟩]) ∧
    book_create_post s i fb =
      (s, [Action.render "book_form"
        ⟨some (Entity.book (bookFromForm i fb)),
         (sortByKey Author.family_name s.authors).map Entity.author,
         (sortByKey Genre.name s.genres).map Entity.genre,
         validateBookForm fb⟩]) ∧
    book_update_post s i fb =
      (s, [Action.render "book_form"
        ⟨some (Entity.book (bookFromForm i fb)),
         (sortByKey Author.family_name s.authors).map Entity.author,
         (sortByKey Genre.name s.genres).map Entity.genre,
         validateBookForm fb⟩]) ∧
    bookinstance_create_post s i fi =
      (s, [Action.render "bookinstance_form"
        ⟨some (Entity.bi (bookInstanceFromForm i fi)),
         (sortByKey Book.title s.books).map Entity.book, [],
         validateBookInstanceForm fi⟩]) ∧
    bookinstance_update_post s i fi =
      (s, [Action.render "bookinstance_form"
        ⟨some (Entity.bi (bookInstanceFromForm i fi)),
         s.books.map Entity.book, [],
         validateBookInstanceForm fi⟩]) ∧
    (strLength (trimStr fa.first_name) = 0 →
      ("first_name", "名は必須です。") ∈ validateAuthorForm fa) ∧
    (strLength (trimStr fa.family_name) = 0 →
      ("family_name", "姓は必須です。") ∈ validateAuthorForm fa) ∧
    (strLength (trimStr fg.name) = 0 →
      ("name", "ジャンル名は3文字以上で入力してください") ∈ validateGenreForm fg) ∧
    (strLength (trimStr fb.title) = 0 →
      ("title", "タイトルは必須です。") ∈ validateBookForm fb) ∧
    (strLength (trimStr fb.author) = 0 →
      ("author", "著者は必須です。") ∈ validateBookForm fb) ∧
    (strLength (trimStr fb.summary) = 0 →
      ("summary", "概要は必須です。") ∈ validateBookForm fb) ∧
    (strLength (trimStr fb.isbn) = 0 →
      ("isbn", "ISBNは必須です") ∈ validateBookForm fb) ∧
    (strLength (trimStr fi.book) = 0 →
      ("book", "本を指定してください") ∈ validateBookInstanceForm fi) ∧
    (strLength (trimStr fi.imprint) = 0 →
      ("imprint", "出版情報を指定してください") ∈ validateBookInstanceForm fi) := by
  have ha2 := isEmpty_false_of_ne_nil ha
  have hg2 := isEmpty_false_of_ne_nil hg
  have hb2 := isEmpty_false_of_ne_nil hb
  have hi2 := isEmpty_false_of_ne_nil hi
  refine ⟨?_, ?_, ?_, ?_, ?_, ?_, ?_, ?_, ?_, ?_, ?_, ?_, ?_, ?_, ?_, ?_, ?_⟩
  · simp [author_create_post, ha2]
  · simp [author_update_post, ha2]
  · simp [genre_create_post, hg2]
  · simp [genre_update_post, hg2]
  · simp [book_create_post, hb2]
  · simp [book_update_post, hb2]
  · simp [bookinstance_create_post, hi2]
  · simp [bookinstance_update_post, hi2]
  · intro h
    have h1 : ¬ strLength (trimStr fa.first_name) ≥ 1 := by omega
    simp [validateAuthorForm, h1]
  · intro h
    have h1 : ¬ strLength (trimStr fa.family_name) ≥ 1 := by omega
    simp [validateAuthorForm, h1]
  · intro h
    have h1 : ¬ strLength (trimStr fg.name) ≥ 3 := by omega
    simp [validateGenreForm, h1]
  · intro h
    have h1 : ¬ strLength (trimStr fb.title) ≥ 1 := by omega
    simp [validateBookForm, h1]
  · intro h
    have h1 : ¬ strLength (trimStr fb.author) ≥ 1 := by omega
    simp [validateBookForm, h1]
  · intro h
    have h1 : ¬ strLength (trimStr fb.summary) ≥ 1 := by omega
    simp [validateBookForm, h1]
  · intro h
    have h1 : ¬ strLength (trimStr fb.isbn) ≥ 1 := by omega
    simp [validateBookForm, h1]
  · intro h
    have h1 : ¬ strLength (trimStr fi.book) ≥ 1 := by omega
    simp [validateBookInstanceForm, h1]
  · intro h
    have h1 : ¬ strLength (trimStr fi.imprint) ≥ 1 := by omega
    simp [validateBookInstanceForm, h1]

/-- C4 witness: all-empty submissions on the empty store: the author form is
re-rendered with no store write, and the missing first name contributes its
message. -/
theorem C4_witness :
    validateAuthorForm ⟨"", "", none, none⟩ ≠ [] ∧
    validateGenreForm ⟨""⟩ ≠ [] ∧
    validateBookForm ⟨"", "", "", "", GenreField.absent⟩ ≠ [] ∧
    validateBookInstanceForm ⟨"", "", "", none⟩ ≠ [] ∧
    author_create_post ⟨[], [], [], []⟩ "x" ⟨"", "", none, none⟩ =
      (⟨[], [], [], []⟩, [Action.render "author_form"
        ⟨some (Entity.author (authorFromForm "x" ⟨"", "", none, none⟩)), [], [],
         validateAuthorForm ⟨"", "", none, none⟩⟩]) ∧
    ("first_name", "名は必須です。") ∈ validateAuthorForm ⟨"", "", none, none⟩ := by
  have h := C4_validation_failure_no_write ⟨[], [], [], []⟩ "x"
    ⟨"", "", none, none⟩ ⟨""⟩ ⟨"", "", "", "", GenreField.absent⟩ ⟨"", "", "", none⟩
    (by decide) (by decide) (by decide) (by decide)
  exact ⟨by decide, by decide, by decide, by decide, h.1,
    h.2.2.2.2.2.2.2.2.1 (by decide)⟩

/-- C5: evaluating each delete-GET handler at an identifier that resolves to
no record: the handler issues the list redirect but, lacking a return, then
still renders the confirmation view with a null primary record — it does not
short-circuit. -/
theorem C5_delete_get_missing_renders_after_redirect :
    (author_delete_get ⟨[], [], [], []⟩ "x").2 =
      [Action.redirect "/catalog/authors",
       Action.render "author_delete" ⟨none, [], [], []⟩] ∧
    (genre_delete_get ⟨[], [], [], []⟩ "x").2 =
      [Action.redirect "/catalog/genres",
       Action.render "genre_delete" ⟨none, [], [], []⟩] ∧
    (book_delete_get ⟨[], [], [], []⟩ "x").2 =
      [Action.redirect "/catalog/books",
       Action.render "book_delete" ⟨none, [], [], []⟩] ∧
    (bookinstance_delete_get ⟨[], [], [], []⟩ "x").2 =
      [Action.redirect "/catalog/bookinstances",
       Action.render "bookinstance_delete" ⟨none, [], [], []⟩] :=
  ⟨by decide, by decide, by decide, by decide⟩

/-- C6 counterexample: the BookInstance list view renders the store order
unchanged; on a store whose two instances are strictly descending in every
field, the rendered list is ascending in none of them, refuting the claim
that every entity's list is sorted by a natural sort field. -/
theorem C6_counterexample :
    (bookinstance_list
      ⟨[], [], [],
       [⟨"2", "b2", "z", "Loaned", some "2030-01-01"⟩,
        ⟨"1", "b1", "a", "Available", some "2020-01-01"⟩]⟩).2 =
      [Action.render "bookinstance_list"
        ⟨none,
         [Entity.bi ⟨"2", "b2", "z", "Loaned", some "2030-01-01"⟩,
          Entity.bi ⟨"1", "b1", "a", "Available", some "2020-01-01"⟩], [], []⟩] ∧
    charListLe (chars "2") (chars "1") = false ∧
    charListLe (chars "b2") (chars "b1") = false ∧
    charListLe (chars "z") (chars "a") = false ∧
    charListLe (chars "Loaned") (chars "Available") = false ∧
    charListLe (chars "2030-01-01") (chars "2020-01-01") = false :=
  ⟨by decide, by decide, by decide, by decide, by decide, by decide⟩

/-- C6 (amended): the Author, Book and Genre list views render all records
sorted ascending by family name, title and name respectively (a sorted
permutation of the store's collection), while the BookInstance list view
renders the collection in store order with no sort applied. -/
theorem C6_list_views_sorted (s : Store) :
    author_list s =
      (s, [Action.render "author_list"
        ⟨none, (sortByKey Author.family_name s.authors).map Entity.author, [], []⟩]) ∧
    List.Sorted (keyLe Author.family_name) (sortByKey Author.family_name s.authors) ∧
    List.Perm (sortByKey Author.family_name s.authors) s.authors ∧
    book_list s =
      (s, [Action.render "book_list"
        ⟨none, (sortByKey Book.title s.books).map Entity.book, [], []⟩]) ∧
    List.Sorted (keyLe Book.title) (sortByKey Book.title s.books) ∧
    List.Perm (sortByKey Book.title s.books) s.books ∧
    genre_list s =
      (s, [Action.render "genre_list"
        ⟨none, (sortByKey Genre.name s.genres).map Entity.genre, [], []⟩]) ∧
    List.Sorted (keyLe Genre.name) (sortByKey Genre.name s.genres) ∧
    List.Perm (sortByKey Genre.name s.genres) s.genres ∧
    bookinstance_list s =
      (s, [Action.render "bookinstance_list"
        ⟨none, s.bookinstances.map Entity.bi, [], []⟩]) := by
  refine ⟨rfl, ?_, ?_, rfl, ?_, ?_, rfl, ?_, ?_, rfl⟩ <;>
    first
      | exact List.sorted_insertionSort _ _
      | exact List.perm_insertionSort _ _

/-- C7: the genre form field is normalized by the middleware before
validation — absent becomes the empty list, a scalar a one-element list, a
list stays unchanged — and the Book record written by a validation-passing
create or update carries exactly the normalized (then element-escaped)
list. -/
theorem C7_genre_field_normalization (s : Store) (newId pid : String) (f : BookForm)
    (hv : validateBookForm f = []) :
    normalizeGenre GenreField.absent = [] ∧
    (∀ v, normalizeGenre (GenreField.one v) = [v]) ∧
    (∀ l, normalizeGenre (GenreField.many l) = l) ∧
    (book_create_post s newId f).1.books = s.books ++ [bookFromForm newId f] ∧
    (bookFromForm newId f).genre = (normalizeGenre f.genre).map escapeHtml ∧
    (book_update_post s pid f).1.books =
      s.books.map (fun r => if r.id == pid then bookFromForm pid f else r) := by
  refine ⟨rfl, fun v => rfl, fun l => rfl, ?_, rfl, ?_⟩
  · simp [book_create_post, hv]
  · have hfst := findByIdAndUpdate_fst Book.id s.books pid (bookFromForm pid f)
    simp at hfst
    simp [book_update_post, hv]
    rcases h : findByIdAndUpdate Book.id s.books pid (bookFromForm pid f) with ⟨books2, ob⟩
    cases ob <;> simp_all

/-- C7 witness: a valid Book submission with a scalar genre field is stored
with the one-element genre list. -/
theorem C7_witness :
    validateBookForm ⟨"T", "A", "S", "I", GenreField.one "g"⟩ = [] ∧
    (book_create_post ⟨[], [], [], []⟩ "x" ⟨"T", "A", "S", "I", GenreField.one "g"⟩).1.books =
      [] ++ [bookFromForm "x" ⟨"T", "A", "S", "I", GenreField.one "g"⟩] ∧
    (bookFromForm "x" ⟨"T", "A", "S", "I", GenreField.one "g"⟩).genre =
      (normalizeGenre (GenreField.one "g")).map escapeHtml := by
  have h := C7_genre_field_normalization ⟨[], [], [], []⟩ "x" "p"
    ⟨"T", "A", "S", "I", GenreField.one "g"⟩ (by decide)
  exact ⟨by decide, h.2.2.2.1, h.2.2.2.2.1⟩

/-- C8: every validation-passing update-POST replaces, in place, the record
carrying the URL identifier by the record rebuilt wholly from the submitted
(sanitized) values with that same identifier — full replacement, identifier
preserved — and redirects to the record's detail path.  The rebuilt records
are spelled out field by field. -/
theorem C8_update_replacement (s : Store) (pid : String)
    (fa : AuthorForm) (fg : GenreForm) (fb : BookForm) (fi : BookInstanceForm) :
    (validateAuthorForm fa = [] →
      author_update_post s pid fa =
        ({ s with authors :=
            s.authors.map (fun r => if r.id == pid then authorFromForm pid fa else r) },
         [Action.redirect (authorUrl pid)])) ∧
    authorFromForm pid fa =
      ⟨pid, escapeHtml (trimStr fa.first_name), escapeHtml (trimStr fa.family_name),
       toDateField fa.date_of_birth, toDateField fa.date_of_death⟩ ∧
    (validateGenreForm fg = [] →
      genre_update_post s pid fg =
        ({ s with genres :=
            s.genres.map (fun r => if r.id == pid then genreFromForm pid fg else r) },
         [Action.redirect (genreUrl pid)])) ∧
    genreFromForm pid fg = ⟨pid, escapeHtml (trimStr fg.name)⟩ ∧
    (∀ b, findById Book.id s.books pid = some b → validateBookForm fb = [] →
      book_update_post s pid fb =
        ({ s with books :=
            s.books.map (fun r => if r.id == pid then bookFromForm pid fb else r) },
         [Action.redirect (bookUrl pid)])) ∧
    bookFromForm pid fb =
      ⟨pid, escapeHtml (trimStr fb.title), escapeHtml (trimStr fb.author),
       escapeHtml (trimStr fb.summary), escapeHtml (trimStr fb.isbn),
       (normalizeGenre fb.genre).map escapeHtml⟩ ∧
    (validateBookInstanceForm fi = [] →
      bookinstance_update_post s pid fi =
        ({ s with bookinstances :=
            s.bookinstances.map (fun r => if r.id == pid then bookInstanceFromForm pid fi else r) },
         [Action.redirect (bookinstanceUrl pid)])) ∧
    bookInstanceFromForm pid fi =
      ⟨pid, escapeHtml (trimStr fi.book), escapeHtml (trimStr fi.imprint),
       escapeHtml fi.status, toDateField fi.due_back⟩ := by
  refine ⟨?_, rfl, ?_, rfl, ?_, rfl, ?_, rfl⟩
  · intro hva
    simp [author_update_post, hva, findByIdAndUpdate_fst, authorFromForm]
  · intro hvg
    simp [genre_update_post, hvg, findByIdAndUpdate_fst, genreFromForm]
  · intro b hb hvb
    have hfind : s.books.find? (fun r => Book.id r == pid) = some b := by
      simpa [findById] using hb
    have hbid : b.id = pid := by
      have := List.find?_some hfind
      simpa using this
    simp [book_update_post, hvb, findByIdAndUpdate, hfind, hbid]
  · intro hvi
    simp [bookinstance_update_post, hvi, findByIdAndUpdate_fst, bookInstanceFromForm]

/-- C8 witness: a store holding one record of each entity under the same
identifier, updated by valid submissions; all four handlers are
exercised. -/
theorem C8_witness :
    validateAuthorForm ⟨"Jane", "Austen", none, none⟩ = [] ∧
    validateGenreForm ⟨"Fiction"⟩ = [] ∧
    validateBookForm ⟨"Emma", "a1", "sum", "isbn9", GenreField.many ["g1"]⟩ = [] ∧
    validateBookInstanceForm ⟨"b1", "imp", "Available", some "2025-01-01"⟩ = [] ∧
    findById Book.id ([⟨"u1", "OldT", "a0", "s0", "i0", []⟩] : List Book) "u1" =
      some ⟨"u1", "OldT", "a0", "s0", "i0", []⟩ ∧
    author_update_post
      ⟨[⟨"u1", "Old", "Name", none, none⟩], [⟨"u1", "OldT", "a0", "s0", "i0", []⟩],
       [⟨"u1", "OldG"⟩], [⟨"u1", "b0", "imp0", "Available", none⟩]⟩ "u1"
      ⟨"Jane", "Austen", none, none⟩ =
      ({ (⟨[⟨"u1", "Old", "Name", none, none⟩], [⟨"u1", "OldT", "a0", "s0", "i0", []⟩],
          [⟨"u1", "OldG"⟩], [⟨"u1", "b0", "imp0", "Available", none⟩]⟩ : Store) with
         authors := ([⟨"u1", "Old", "Name", none, none⟩] : List Author).map
           (fun r => if r.id == "u1" then authorFromForm "u1" ⟨"Jane", "Austen", none, none⟩ else r) },
       [Action.redirect (authorUrl "u1")]) ∧
    genre_update_post
      ⟨[⟨"u1", "Old", "Name", none, none⟩], [⟨"u1", "OldT", "a0", "s0", "i0", []⟩],
       [⟨"u1", "OldG"⟩], [⟨"u1", "b0", "imp0", "Available", none⟩]⟩ "u1" ⟨"Fiction"⟩ =
      ({ (⟨[⟨"u1", "Old", "Name", none, none⟩], [⟨"u1", "OldT", "a0", "s0", "i0", []⟩],
          [⟨"u1", "OldG"⟩], [⟨"u1", "b0", "imp0", "Available", none⟩]⟩ : Store) with
         genres := ([⟨"u1", "OldG"⟩] : List Genre).map
           (fun r => if r.id == "u1" then genreFromForm "u1" ⟨"Fiction"⟩ else r) },
       [Action.redirect (genreUrl "u1")]) ∧
    book_update_post
      ⟨[⟨"u1", "Old", "Name", none, none⟩], [⟨"u1", "OldT", "a0", "s0", "i0", []⟩],
       [⟨"u1", "OldG"⟩], [⟨"u1", "b0", "imp0", "Available", none⟩]⟩ "u1"
      ⟨"Emma", "a1", "sum", "isbn9", GenreField.many ["g1"]⟩ =
      ({ (⟨[⟨"u1", "Old", "Name", none, none⟩], [⟨"u1", "OldT", "a0", "s0", "i0", []⟩],
          [⟨"u1", "OldG"⟩], [⟨"u1", "b0", "imp0", "Available", none⟩]⟩ : Store) with
         books := ([⟨"u1", "OldT", "a0", "s0", "i0", []⟩] : List Book).map
           (fun r => if r.id == "u1" then
             bookFromForm "u1" ⟨"Emma", "a1", "sum", "isbn9", GenreField.many ["g1"]⟩ else r) },
       [Action.redirect (bookUrl "u1")]) ∧
    bookinstance_update_post
      ⟨[⟨"u1", "Old", "Name", none, none⟩], [⟨"u1", "OldT", "a0", "s0", "i0", []⟩],
       [⟨"u1", "OldG"⟩], [⟨"u1", "b0", "imp0", "Available", none⟩]⟩ "u1"
      ⟨"b1", "imp", "Available", some "2025-01-01"⟩ =
      ({ (⟨[⟨"u1", "Old", "Name", none, none⟩], [⟨"u1", "OldT", "a0", "s0", "i0", []⟩],
          [⟨"u1", "OldG"⟩], [⟨"u1", "b0", "imp0", "Available", none⟩]⟩ : Store) with
         bookinstances := ([⟨"u1", "b0", "imp0", "Available", none⟩] : List BookInstance).map
           (fun r => if r.id == "u1" then
             bookInstanceFromForm "u1" ⟨"b1", "imp", "Available", some "2025-01-01"⟩ else r) },
       [Action.redirect (bookinstanceUrl "u1")]) ∧
    bookInstanceFromForm "u1" ⟨"b1", "imp", "Available", some "2025-01-01"⟩ =
      ⟨"u1", escapeHtml (trimStr "b1"), escapeHtml (trimStr "imp"),
       escapeHtml "Available", toDateField (some "2025-01-01")⟩ := by
  have h := C8_update_replacement
    ⟨[⟨"u1", "Old", "Name", none, none⟩], [⟨"u1", "OldT", "a0", "s0", "i0", []⟩],
     [⟨"u1", "OldG"⟩], [⟨"u1", "b0", "imp0", "Available", none⟩]⟩ "u1"
    ⟨"Jane", "Austen", none, none⟩ ⟨"Fiction"⟩
    ⟨"Emma", "a1", "sum", "isbn9", GenreField.many ["g1"]⟩
    ⟨"b1", "imp", "Available", some "2025-01-01"⟩
  exact ⟨by decide, by decide, by decide, by decide, by decide,
    h.1 (by decide), h.2.2.1 (by decide),
    h.2.2.2.2.1 ⟨"u1", "OldT", "a0", "s0", "i0", []⟩ (by decide) (by decide),
    h.2.2.2.2.2.2.1 (by decide), h.2.2.2.2.2.2.2⟩

/-- C9: each delete-POST counts dependents against the URL identifier, but
the record it removes is the one named by the request-body identifier: when
the URL identifier has no dependents the body-named record is deleted —
whatever it is and whatever dependents it has — and the response redirects
to the list. -/
theorem C9_checks_url_id_deletes_body_id (s : Store) (pid bid : String) :
    (s.books.filter (fun x => x.author == pid) = [] →
      author_delete_post s pid bid =
        ({ s with authors := findByIdAndDelete Author.id s.authors bid },
         [Action.redirect "/catalog/authors"])) ∧
    (s.books.filter (fun x => x.genre.contains pid) = [] →
      genre_delete_post s pid bid =
        ({ s with genres := findByIdAndDelete Genre.id s.genres bid },
         [Action.redirect "/catalog/genres"])) ∧
    (s.bookinstances.filter (fun i => i.book == pid) = [] →
      (book_delete_post s pid bid).1 =
        { s with books := findByIdAndDelete Book.id s.books bid } ∧
      (book_delete_post s pid bid).2.getLast? =
        some (Action.redirect "/catalog/books")) := by
  refine ⟨?_, ?_, ?_⟩
  · intro ha
    have ha2 : ¬ (s.books.filter (fun x => x.author == pid)).length > 0 := by
      rw [ha]
      simp
    simp only [author_delete_post]
    rw [if_neg ha2]
  · intro hg
    have hg2 : ¬ (s.books.filter (fun x => x.genre.contains pid)).length > 0 := by
      rw [hg]
      simp
    simp only [genre_delete_post]
    rw [if_neg hg2]
  · intro hk
    have hk2 : ¬ (s.bookinstances.filter (fun i => i.book == pid)).length > 0 := by
      rw [hk]
      simp
    constructor
    · simp only [book_delete_post]
      rw [if_neg hk2]
    · simp only [book_delete_post]
      rw [if_neg hk2]
      cases hmiss : (findById Book.id s.books pid).isNone <;> simp [hmiss]

/-- C9 witness: the URL identifier "p" has no dependents, so each handler
deletes the body-named record "q" even though "q" itself is heavily
referenced (the author and genre "q" both have dependent books, and book "q"
has a dependent instance). -/
theorem C9_witness :
    (⟨[⟨"p", "P", "P", none, none⟩, ⟨"q", "Jane", "Austen", none, none⟩],
      [⟨"p", "T", "q", "s", "i", ["q"]⟩, ⟨"q", "W", "q", "s", "i", ["q"]⟩],
      [⟨"p", "PG"⟩, ⟨"q", "QG"⟩],
      [⟨"c1", "q", "imp", "Available", none⟩]⟩ : Store).books.filter
      (fun x => x.author == "p") = [] ∧
    (author_delete_post
      ⟨[⟨"p", "P", "P", none, none⟩, ⟨"q", "Jane", "Austen", none, none⟩],
       [⟨"p", "T", "q", "s", "i", ["q"]⟩, ⟨"q", "W", "q", "s", "i", ["q"]⟩],
       [⟨"p", "PG"⟩, ⟨"q", "QG"⟩],
       [⟨"c1", "q", "imp", "Available", none⟩]⟩ "p" "q").1.authors =
      [⟨"p", "P", "P", none, none⟩] ∧
    (genre_delete_post
      ⟨[⟨"p", "P", "P", none, none⟩, ⟨"q", "Jane", "Austen", none, none⟩],
       [⟨"p", "T", "q", "s", "i", ["q"]⟩, ⟨"q", "W", "q", "s", "i", ["q"]⟩],
       [⟨"p", "PG"⟩, ⟨"q", "QG"⟩],
       [⟨"c1", "q", "imp", "Available", none⟩]⟩ "p" "q").1.genres =
      [⟨"p", "PG"⟩] ∧
    (book_delete_post
      ⟨[⟨"p", "P", "P", none, none⟩, ⟨"q", "Jane", "Austen", none, none⟩],
       [⟨"p", "T", "q", "s", "i", ["q"]⟩, ⟨"q", "W", "q", "s", "i", ["q"]⟩],
       [⟨"p", "PG"⟩, ⟨"q", "QG"⟩],
       [⟨"c1", "q", "imp", "Available", none⟩]⟩ "p" "q").1.books =
      [⟨"p", "T", "q", "s", "i", ["q"]⟩] := by
  have h := C9_checks_url_id_deletes_body_id
    ⟨[⟨"p", "P", "P", none, none⟩, ⟨"q", "Jane", "Austen", none, none⟩],
     [⟨"p", "T", "q", "s", "i", ["q"]⟩, ⟨"q", "W", "q", "s", "i", ["q"]⟩],
     [⟨"p", "PG"⟩, ⟨"q", "QG"⟩],
     [⟨"c1", "q", "imp", "Available", none⟩]⟩ "p" "q"
  refine ⟨by decide, ?_, ?_, ?_⟩
  · rw [h.1 (by decide)]
    decide
  · rw [h.2.1 (by decide)]
    decide
  · rw [(h.2.2 (by decide)).1]
    decide

/-- C10: a validation-passing Book update-POST aimed at an identifier with
no existing Book dereferences the null update result and ends in a fatal
request error (store unchanged), while the Author, Genre and BookInstance
update-POST handlers under the same condition redirect to the constructed
record's detail URL without error. -/
theorem C10_book_update_missing_is_fatal (s : Store) (pid : String)
    (fa : AuthorForm) (fg : GenreForm) (fb : BookForm) (fi : BookInstanceForm) :
    (validateBookForm fb = [] → findById Book.id s.books pid = none →
      book_update_post s pid fb =
        (s, [Action.fatal "TypeError: Cannot read properties of null (reading url)"])) ∧
    (validateAuthorForm fa = [] → findById Author.id s.authors pid = none →
      author_update_post s pid fa = (s, [Action.redirect (authorUrl pid)])) ∧
    (validateGenreForm fg = [] → findById Genre.id s.genres pid = none →
      genre_update_post s pid fg = (s, [Action.redirect (genreUrl pid)])) ∧
    (validateBookInstanceForm fi = [] → findById BookInstance.id s.bookinstances pid = none →
      bookinstance_update_post s pid fi = (s, [Action.redirect (bookinstanceUrl pid)])) := by
  refine ⟨?_, ?_, ?_, ?_⟩
  · intro hvb hnb
    have hnb2 : s.books.find? (fun r => Book.id r == pid) = none := by
      simpa [findById] using hnb
    simp [book_update_post, hvb, findByIdAndUpdate, hnb2]
  · intro hva hna
    have hna2 : s.authors.find? (fun r => Author.id r == pid) = none := by
      simpa [findById] using hna
    simp [author_update_post, hva, findByIdAndUpdate, hna2, authorFromForm]
  · intro hvg hng
    have hng2 : s.genres.find? (fun r => Genre.id r == pid) = none := by
      simpa [findById] using hng
    simp [genre_update_post, hvg, findByIdAndUpdate, hng2, genreFromForm]
  · intro hvi hni
    have hni2 : s.bookinstances.find? (fun r => BookInstance.id r == pid) = none := by
      simpa [findById] using hni
    simp [bookinstance_update_post, hvi, findByIdAndUpdate, hni2, bookInstanceFromForm]

/-- C10 witness: a valid Book submission aimed at an identifier held only by
an Author (no Book record) ends fatally; the other three handlers, aimed at
an identifier absent from their own collections, redirect without error. -/
theorem C10_witness :
    validateBookForm ⟨"Emma", "a1", "sum", "isbn9", GenreField.absent⟩ = [] ∧
    validateAuthorForm ⟨"Jane", "Austen", none, none⟩ = [] ∧
    findById Book.id (([] : List Book)) "x" = none ∧
    book_update_post ⟨[⟨"x", "A", "B", none, none⟩], [], [], []⟩ "x"
      ⟨"Emma", "a1", "sum", "isbn9", GenreField.absent⟩ =
      (⟨[⟨"x", "A", "B", none, none⟩], [], [], []⟩,
       [Action.fatal "TypeError: Cannot read properties of null (reading url)"]) ∧
    author_update_post ⟨[], [], [], []⟩ "x" ⟨"Jane", "Austen", none, none⟩ =
      (⟨[], [], [], []⟩, [Action.redirect (authorUrl "x")]) ∧
    genre_update_post ⟨[], [], [], []⟩ "x" ⟨"Fiction"⟩ =
      (⟨[], [], [], []⟩, [Action.redirect (genreUrl "x")]) ∧
    bookinstance_update_post ⟨[], [], [], []⟩ "x" ⟨"b1", "imp", "Available", none⟩ =
      (⟨[], [], [], []⟩, [Action.redirect (bookinstanceUrl "x")]) := by
  have h1 := C10_book_update_missing_is_fatal ⟨[⟨"x", "A", "B", none, none⟩], [], [], []⟩ "x"
    ⟨"Jane", "Austen", none, none⟩ ⟨"Fiction"⟩
    ⟨"Emma", "a1", "sum", "isbn9", GenreField.absent⟩ ⟨"b1", "imp", "Available", none⟩
  have h2 := C10_book_update_missing_is_fatal ⟨[], [], [], []⟩ "x"
    ⟨"Jane", "Austen", none, none⟩ ⟨"Fiction"⟩
    ⟨"Emma", "a1", "sum", "isbn9", GenreField.absent⟩ ⟨"b1", "imp", "Available", none⟩
  exact ⟨by decide, by decide, by decide, h1.1 (by decide) (by decide),
    h2.2.1 (by decide) (by decide), h2.2.2.1 (by decide) (by decide),
    h2.2.2.2 (by decide) (by decide)⟩

end LocalLibrary
